import Mathlib

/-!
Shallow embedding of the header-scanning endpoint of the `shipsafe`
repository (`src/app/api/scan-headers/route.ts`, export `POST`), together
with theorems settling the specification claims about it.

Modelling conventions:
* Response headers are a finite association list `List (String × String)`;
  the platform `Headers.get` lookup (case-insensitive, `null` when absent)
  becomes `headersGet`, returning `Option String`.
* JavaScript truthiness of a header value (`!!headerValue`) is
  `none → false`, `some v → v ≠ ""`.
* The platform `new URL` constructor is modelled only as far as the route
  uses it: extraction of the scheme (`.protocol`), per the WHATWG scheme
  grammar (leading ASCII letter, then letters/digits/`+`/`-`/`.`, then a
  colon), lowercased with a trailing colon, and failure (`none`) when the
  string has no such scheme.
* The two network attempts are driven by an abstract behaviour per attempt:
  the fetch resolves with headers before the shared 10-second timer fires
  (`respond`), rejects with a network error (`networkError`), or is still
  pending when the shared timer fires and aborts the shared
  `AbortController` (`timesOut`).  A fetch issued on an already-aborted
  signal rejects immediately, before any network I/O — this is the platform
  semantics of `AbortSignal` and is what the embedding encodes in the
  `timesOut` branch of `POST`.
* `POST` returns the produced response paired with the number of `fetch`
  invocations the route performed, so that "no network call" and "no retry
  beyond the single fallback" are statable.
* The timestamp (`new Date().toISOString()`) is an input parameter; the
  `targetUrl.toString()` normalisation of the echoed URL is not modelled
  (no claim depends on it) — the report carries the input string.
-/

/-- Severity levels of the checklist entries (`"high" | "medium" | "low"`). -/
inductive Severity where
  | high
  | medium
  | low
deriving DecidableEq, Repr

/-- Result status of one header check (`"pass" | "fail" | "warn"`). -/
inductive Status where
  | pass
  | fail
  | warn
deriving DecidableEq, Repr

/-- One entry of the static `SECURITY_HEADERS` checklist. -/
structure HeaderSpec where
  header : String
  name : String
  severity : Severity
  failMessage : String
  passMessage : String
deriving DecidableEq, Repr

/-- One per-header result, mirroring the `HeaderCheck` interface of the route. -/
structure HeaderCheck where
  name : String
  header : String
  status : Status
  message : String
deriving DecidableEq, Repr

/-- The `summary` object of a report. -/
structure Summary where
  passed : Nat
  failed : Nat
  warnings : Nat
  total : Nat
deriving DecidableEq, Repr

/-- The success payload (`url`, `timestamp`, `results`, `summary`). -/
structure ScanReport where
  url : String
  timestamp : String
  results : List HeaderCheck
  summary : Summary
deriving DecidableEq, Repr

/-- The fixed six-entry checklist `SECURITY_HEADERS` of the route, verbatim. -/
def SECURITY_HEADERS : List HeaderSpec :=
  [ { header := "content-security-policy"
    , name := "Content-Security-Policy"
    , severity := Severity.high
    , failMessage := "Missing - XSS attacks possible"
    , passMessage := "Present - XSS protection enabled" }
  , { header := "x-frame-options"
    , name := "X-Frame-Options"
    , severity := Severity.medium
    , failMessage := "Missing - Clickjacking possible"
    , passMessage := "Present - Clickjacking blocked" }
  , { header := "strict-transport-security"
    , name := "Strict-Transport-Security"
    , severity := Severity.high
    , failMessage := "Missing - HTTPS not enforced"
    , passMessage := "Present - HTTPS enforced" }
  , { header := "x-content-type-options"
    , name := "X-Content-Type-Options"
    , severity := Severity.medium
    , failMessage := "Missing - MIME sniffing possible"
    , passMessage := "Present - MIME sniffing blocked" }
  , { header := "referrer-policy"
    , name := "Referrer-Policy"
    , severity := Severity.low
    , failMessage := "Missing - Referrer data may leak"
    , passMessage := "Present - Referrer controlled" }
  , { header := "permissions-policy"
    , name := "Permissions-Policy"
    , severity := Severity.low
    , failMessage := "Missing - Browser features unrestricted"
    , passMessage := "Present - Browser features restricted" } ]

/-- Response headers as an association list of name/value pairs. -/
abbrev Headers : Type := List (String × String)

/-- ASCII lowercasing of a string (header names are ASCII, and the platform
case-insensitivity of `Headers.get` is ASCII case folding per the Fetch
standard). -/
def lowerString (s : String) : String :=
  String.mk (s.toList.map Char.toLower)

/-- Platform `response.headers.get(name)`: case-insensitive lookup,
`none` when the header is absent. -/
def headersGet (headers : Headers) (name : String) : Option String :=
  (List.find? (fun p => lowerString p.1 == lowerString name) headers).map Prod.snd

/-- JavaScript truthiness of `headers.get` output: `!!headerValue`. -/
def headerTruthy : Option String → Bool
  | some v => v != ""
  | none => false

/-- The body of the `SECURITY_HEADERS.map` callback of the route: look the
header up, decide presence by truthiness, and build the `HeaderCheck`. -/
def checkHeader (check : HeaderSpec) (headers : Headers) : HeaderCheck :=
  let headerValue := headersGet headers check.header
  let hasHeader := headerTruthy headerValue
  { name := check.name
  , header := check.header
  , status :=
      if hasHeader then Status.pass
      else if check.severity == Severity.low then Status.warn else Status.fail
  , message := if hasHeader then check.passMessage else check.failMessage }

/-- The `summary` calculation of the route: filter counts by status, and
`total` is the length of `results`. -/
def mkSummary (results : List HeaderCheck) : Summary :=
  { passed := (results.filter (fun r => r.status == Status.pass)).length
  , failed := (results.filter (fun r => r.status == Status.fail)).length
  , warnings := (results.filter (fun r => r.status == Status.warn)).length
  , total := results.length }

/-- The success payload built by the route from the reached response. -/
def mkReport (url timestamp : String) (headers : Headers) : ScanReport :=
  let results := SECURITY_HEADERS.map (fun check => checkHeader check headers)
  { url := url
  , timestamp := timestamp
  , results := results
  , summary := mkSummary results }

/-- WHATWG scheme grammar: letters, digits, `+`, `-`, `.` may continue a
scheme. -/
def isSchemeChar (c : Char) : Bool :=
  c.isAlphanum || c == '+' || c == '-' || c == '.'

/-- Consume scheme characters up to the terminating colon; `none` when the
string ends or a non-scheme character appears before any colon. -/
def takeScheme : List Char → Option (List Char)
  | [] => none
  | c :: rest =>
      if c == ':' then some []
      else if isSchemeChar c then (takeScheme rest).map (fun cs => c :: cs)
      else none

/-- Platform model: the `.protocol` of `new URL(s)` — the scheme up to and
including the colon, lowercased — or `none` when `new URL` throws because
`s` carries no scheme (leading ASCII letter, scheme characters, colon). -/
def parseProtocol (s : String) : Option String :=
  match s.toList with
  | [] => none
  | c :: rest =>
      if c.isAlpha then
        (takeScheme rest).map (fun cs => lowerString (String.mk (c :: cs)) ++ ":")
      else none

/-- JavaScript truthiness of the destructured `url` field of the request
body: absent/`undefined` and the empty string are falsy. -/
def urlTruthy : Option String → Bool
  | some s => s != ""
  | none => false

/-- Abstract behaviour of one fetch attempt issued on a live signal: it
resolves with response headers before the shared timer fires, rejects with a
network error, or is still pending when the timer fires (so the shared
`AbortController` is aborted and the attempt rejects). -/
inductive AttemptBehavior where
  | respond (headers : Headers)
  | networkError
  | timesOut
deriving Repr

/-- A response of the route: an error body `{ error }` with its HTTP status,
or a report body with its HTTP status. -/
inductive PostResponse where
  | errorResp (status : Nat) (error : String)
  | reportResp (status : Nat) (report : ScanReport)
deriving DecidableEq, Repr

/-- The route handler `POST`, driven by the request body's `url` field and
the behaviour of the two possible fetch attempts.  Returns the response
paired with the number of `fetch` invocations performed.

Control flow, following the source:
1. falsy `url` → 400 "URL is required", no fetch;
2. `new URL` failure or protocol outside `["http:", "https:"]` → 400
   "Invalid URL format", no fetch;
3. HEAD fetch under a 10-second timer on a shared `AbortController`:
   * resolves → report from its headers (one fetch);
   * rejects with a network error → GET fetch on the same signal: resolves
     → report from its headers, otherwise → 400 "Could not reach the target
     URL" (two fetches);
   * still pending when the timer fires → the timer aborts the shared
     controller, the HEAD rejects, and the fallback GET is issued on the
     already-aborted signal, so it rejects immediately whatever the target
     would do → 400 "Could not reach the target URL" (two fetches). -/
def POST (url : Option String) (head fallbackGet : AttemptBehavior)
    (timestamp : String) : PostResponse × Nat :=
  if !(urlTruthy url) then
    (PostResponse.errorResp 400 "URL is required", 0)
  else
    let u := url.getD ""
    match parseProtocol u with
    | none => (PostResponse.errorResp 400 "Invalid URL format", 0)
    | some proto =>
        if !(["http:", "https:"].contains proto) then
          (PostResponse.errorResp 400 "Invalid URL format", 0)
        else
          match head with
          | AttemptBehavior.respond hs =>
              (PostResponse.reportResp 200 (mkReport u timestamp hs), 1)
          | AttemptBehavior.networkError =>
              match fallbackGet with
              | AttemptBehavior.respond hs =>
                  (PostResponse.reportResp 200 (mkReport u timestamp hs), 2)
              | _ =>
                  (PostResponse.errorResp 400 "Could not reach the target URL", 2)
          | AttemptBehavior.timesOut =>
              (PostResponse.errorResp 400 "Could not reach the target URL", 2)

/-- Unfolding equation for `headersGet` on a cons cell. -/
theorem headersGet_cons (a : String × String) (l : Headers) (name : String) :
    headersGet (a :: l) name
      = if lowerString a.1 == lowerString name then some a.2 else headersGet l name := by
  by_cases hpa : (lowerString a.1 == lowerString name) = true
  · simp [headersGet, List.find?, hpa]
  · simp [headersGet, List.find?, hpa]

/-- `headersGet` depends only on the values and the lowercased names of the
stored headers: the lookup is case-insensitive. -/
theorem headersGet_congr (hs₁ hs₂ : Headers) (name : String)
    (h : hs₁.map (fun q => (lowerString q.1, q.2))
        = hs₂.map (fun q => (lowerString q.1, q.2))) :
    headersGet hs₁ name = headersGet hs₂ name := by
  induction hs₁ generalizing hs₂ with
  | nil =>
      cases hs₂ with
      | nil => rfl
      | cons b m => simp at h
  | cons a l ih =>
      cases hs₂ with
      | nil => simp at h
      | cons b m =>
          simp only [List.map_cons, List.cons.injEq, Prod.mk.injEq] at h
          obtain ⟨⟨hk, hv⟩, hrest⟩ := h
          rw [headersGet_cons, headersGet_cons, hk, hv, ih m hrest]

/-- The three status filters of `mkSummary` partition the result list. -/
theorem mkSummary_partition (l : List HeaderCheck) :
    (mkSummary l).passed + (mkSummary l).failed + (mkSummary l).warnings
      = (mkSummary l).total := by
  induction l with
  | nil => rfl
  | cons x xs ih =>
      simp only [mkSummary, List.filter_cons, List.length_cons] at ih ⊢
      cases hx : x.status <;> simp [hx] <;> omega

/-- Every success response of `POST` carries status 200 and a report built
by `mkReport` from the headers of whichever attempt resolved. -/
theorem post_report_shape (url : Option String) (head fallbackGet : AttemptBehavior)
    (ts : String) (st : Nat) (r : ScanReport)
    (h : (POST url head fallbackGet ts).1 = PostResponse.reportResp st r) :
    st = 200 ∧ ∃ hs, r = mkReport (url.getD "") ts hs := by
  unfold POST at h
  by_cases h1 : urlTruthy url
  · simp only [h1, Bool.not_true, Bool.false_eq_true, if_false] at h
    cases hp : parseProtocol (url.getD "") with
    | none => simp [hp] at h
    | some proto =>
        simp only [hp] at h
        by_cases h2 : (["http:", "https:"].contains proto) = true
        · simp only [h2, Bool.not_true, Bool.false_eq_true, if_false] at h
          cases head with
          | respond hs =>
              simp only [PostResponse.reportResp.injEq] at h
              exact ⟨h.1.symm, hs, h.2.symm⟩
          | networkError =>
              cases fallbackGet with
              | respond hs =>
                  simp only [PostResponse.reportResp.injEq] at h
                  exact ⟨h.1.symm, hs, h.2.symm⟩
              | networkError => simp at h
              | timesOut => simp at h
          | timesOut => simp at h
        · have h2f : (["http:", "https:"].contains proto) = false := by
            simpa using h2
          simp only [h2f, Bool.not_false, if_true] at h
          simp at h
  · simp [h1] at h

/-- The first checklist entry (Content-Security-Policy), used as a concrete
instance in witnesses. -/
def cspCheck : HeaderSpec :=
  { header := "content-security-policy"
  , name := "Content-Security-Policy"
  , severity := Severity.high
  , failMessage := "Missing - XSS attacks possible"
  , passMessage := "Present - XSS protection enabled" }

/-- C1: for every checklist entry, a response carrying the header with any
non-empty value yields status `pass` regardless of severity; with the header
absent, severity `high` or `medium` yields `fail` and severity `low` yields
`warn`. -/
theorem claim_c1_severity_status_mapping (check : HeaderSpec)
    (hmem : check ∈ SECURITY_HEADERS) (hs : Headers) :
    (∀ v, headersGet hs check.header = some v → v ≠ "" →
        (checkHeader check hs).status = Status.pass)
    ∧ (headersGet hs check.header = none →
        ((check.severity = Severity.high ∨ check.severity = Severity.medium) →
            (checkHeader check hs).status = Status.fail)
        ∧ (check.severity = Severity.low →
            (checkHeader check hs).status = Status.warn)) := by
  refine ⟨?_, fun hnone => ⟨?_, ?_⟩⟩
  · intro v hv hne
    simp [checkHeader, hv, headerTruthy, hne]
  · rintro (hsev | hsev) <;> simp [checkHeader, hnone, headerTruthy, hsev]
  · intro hsev
    simp [checkHeader, hnone, headerTruthy, hsev]

/-- Witness for C1 at the Content-Security-Policy entry: a response carrying
the header with value "x", and the absent-header conclusions. -/
theorem claim_c1_witness :
    (∀ v, headersGet [("content-security-policy", "x")] cspCheck.header = some v → v ≠ "" →
        (checkHeader cspCheck [("content-security-policy", "x")]).status = Status.pass)
    ∧ (headersGet [("content-security-policy", "x")] cspCheck.header = none →
        ((cspCheck.severity = Severity.high ∨ cspCheck.severity = Severity.medium) →
            (checkHeader cspCheck [("content-security-policy", "x")]).status = Status.fail)
        ∧ (cspCheck.severity = Severity.low →
            (checkHeader cspCheck [("content-security-policy", "x")]).status = Status.warn)) :=
  claim_c1_severity_status_mapping cspCheck (by decide) [("content-security-policy", "x")]

/-- C2, behaviour of the code at the claim's scenario: when the HEAD attempt
is still pending at the 10-second mark the shared `AbortController` is
aborted, so the fallback GET — though issued — rejects immediately even when
the target would answer it, and the route returns the unreachable error
instead of a report built from the GET response. -/
theorem claim_c2_timeout_aborts_fallback_get (hs : Headers) (ts : String) :
    POST (some "http://example.com") AttemptBehavior.timesOut
        (AttemptBehavior.respond hs) ts
      = (PostResponse.errorResp 400 "Could not reach the target URL", 2) := rfl

/-- C3: every success response of the route reports `summary.total` equal to
the checklist length, which is 6, whichever attempt supplied the headers. -/
theorem claim_c3_total_is_checklist_length (url : Option String)
    (head fallbackGet : AttemptBehavior) (ts : String) (st : Nat) (r : ScanReport)
    (h : (POST url head fallbackGet ts).1 = PostResponse.reportResp st r) :
    r.summary.total = SECURITY_HEADERS.length ∧ SECURITY_HEADERS.length = 6 := by
  obtain ⟨-, hs, rfl⟩ := post_report_shape url head fallbackGet ts st r h
  exact ⟨by simp [mkReport, mkSummary], by decide⟩

/-- Witness for C3: a scan of a target answering the HEAD with no headers. -/
theorem claim_c3_witness :
    (mkReport "http://example.com" "ts" []).summary.total = SECURITY_HEADERS.length
    ∧ SECURITY_HEADERS.length = 6 :=
  claim_c3_total_is_checklist_length (some "http://example.com")
    (AttemptBehavior.respond []) AttemptBehavior.networkError "ts" 200
    (mkReport "http://example.com" "ts" []) rfl

/-- C4: in every success response the summary counts partition the results:
passed + failed + warnings = total. -/
theorem claim_c4_summary_partition (url : Option String)
    (head fallbackGet : AttemptBehavior) (ts : String) (st : Nat) (r : ScanReport)
    (h : (POST url head fallbackGet ts).1 = PostResponse.reportResp st r) :
    r.summary.passed + r.summary.failed + r.summary.warnings = r.summary.total := by
  obtain ⟨-, hs, rfl⟩ := post_report_shape url head fallbackGet ts st r h
  exact mkSummary_partition _

/-- Witness for C4: a scan whose GET fallback answered with one header. -/
theorem claim_c4_witness :
    (mkReport "https://example.com" "ts" [("x-frame-options", "DENY")]).summary.passed
      + (mkReport "https://example.com" "ts" [("x-frame-options", "DENY")]).summary.failed
      + (mkReport "https://example.com" "ts" [("x-frame-options", "DENY")]).summary.warnings
      = (mkReport "https://example.com" "ts" [("x-frame-options", "DENY")]).summary.total :=
  claim_c4_summary_partition (some "https://example.com") AttemptBehavior.networkError
    (AttemptBehavior.respond [("x-frame-options", "DENY")]) "ts" 200
    (mkReport "https://example.com" "ts" [("x-frame-options", "DENY")]) rfl

/-- The empty string has no scheme. -/
theorem parseProtocol_empty : parseProtocol "" = none := rfl

/-- Shared helper: a missing or empty `url` field short-circuits to the
"URL is required" error with zero fetches. -/
theorem post_required_eq (url : Option String) (head fallbackGet : AttemptBehavior)
    (ts : String) (h : urlTruthy url = false) :
    POST url head fallbackGet ts = (PostResponse.errorResp 400 "URL is required", 0) := by
  unfold POST
  simp [h]

/-- Shared helper: a present but invalid `url` — no scheme, or a scheme
other than http/https — short-circuits to the "Invalid URL format" error
with zero fetches. -/
theorem post_invalid_eq (bad : String) (head fallbackGet : AttemptBehavior)
    (ts : String) (hbadne : bad ≠ "")
    (hbad : ∀ p, parseProtocol bad = some p → (["http:", "https:"].contains p) = false) :
    POST (some bad) head fallbackGet ts
      = (PostResponse.errorResp 400 "Invalid URL format", 0) := by
  unfold POST
  have ht : urlTruthy (some bad) = true := by
    simp [urlTruthy, hbadne]
  simp only [ht, Bool.not_true, Bool.false_eq_true, if_false, Option.getD_some]
  cases hp : parseProtocol bad with
  | none => rfl
  | some p => simp only [hbad p hp, Bool.not_false, if_true]

/-- Shared helper: with a valid http/https URL and both attempt behaviours
unable to resolve, the route returns the unreachable error after exactly the
two fetch invocations. -/
theorem post_unreachable_eq (u p : String) (head fallbackGet : AttemptBehavior)
    (ts : String) (hscheme : parseProtocol u = some p)
    (hp : (["http:", "https:"].contains p) = true)
    (hhead : ∀ hs, head ≠ AttemptBehavior.respond hs)
    (hget : ∀ hs, fallbackGet ≠ AttemptBehavior.respond hs) :
    POST (some u) head fallbackGet ts
      = (PostResponse.errorResp 400 "Could not reach the target URL", 2) := by
  have hne : u ≠ "" := by
    intro he
    rw [he, parseProtocol_empty] at hscheme
    cases hscheme
  unfold POST
  have ht : urlTruthy (some u) = true := by
    simp [urlTruthy, hne]
  simp only [ht, Bool.not_true, Bool.false_eq_true, if_false, Option.getD_some, hscheme,
    hp, Bool.not_true]
  cases head with
  | respond hs => exact absurd rfl (hhead hs)
  | networkError =>
      cases fallbackGet with
      | respond hs => exact absurd rfl (hget hs)
      | networkError => rfl
      | timesOut => rfl
  | timesOut => rfl

/-- C5: invalid input short-circuits before any fetch: a falsy `url` field
gives "URL is required" and zero network calls; a present URL without an
http/https scheme (malformed or another scheme) gives "Invalid URL format"
and zero network calls. -/
theorem claim_c5_validation_before_network (head fallbackGet : AttemptBehavior)
    (ts : String) :
    (∀ url, urlTruthy url = false →
        POST url head fallbackGet ts = (PostResponse.errorResp 400 "URL is required", 0))
    ∧ (∀ u, u ≠ "" →
        (∀ p, parseProtocol u = some p → (["http:", "https:"].contains p) = false) →
        POST (some u) head fallbackGet ts
          = (PostResponse.errorResp 400 "Invalid URL format", 0)) :=
  ⟨fun url h => post_required_eq url head fallbackGet ts h,
   fun u hne hbad => post_invalid_eq u head fallbackGet ts hne hbad⟩

/-- Witness for C5: an absent URL, the malformed string "not-a-url" and the
non-http scheme "ftp://host" all short-circuit with zero fetches. -/
theorem claim_c5_witness :
    POST none AttemptBehavior.timesOut AttemptBehavior.timesOut "ts"
      = (PostResponse.errorResp 400 "URL is required", 0)
    ∧ POST (some "not-a-url") AttemptBehavior.timesOut AttemptBehavior.timesOut "ts"
      = (PostResponse.errorResp 400 "Invalid URL format", 0)
    ∧ POST (some "ftp://host") AttemptBehavior.timesOut AttemptBehavior.timesOut "ts"
      = (PostResponse.errorResp 400 "Invalid URL format", 0) :=
  ⟨(claim_c5_validation_before_network AttemptBehavior.timesOut
      AttemptBehavior.timesOut "ts").1 none rfl,
   (claim_c5_validation_before_network AttemptBehavior.timesOut
      AttemptBehavior.timesOut "ts").2 "not-a-url" (by decide)
      (by
        intro p hp
        rw [show parseProtocol "not-a-url" = none from by decide] at hp
        cases hp),
   (claim_c5_validation_before_network AttemptBehavior.timesOut
      AttemptBehavior.timesOut "ts").2 "ftp://host" (by decide)
      (by
        intro p hp
        rw [show parseProtocol "ftp://host" = some "ftp:" from by decide] at hp
        cases hp
        decide)⟩

/-- C6: when neither the HEAD attempt nor the GET fallback can resolve, the
route returns exactly the unreachable error — status 400, message "Could
not reach the target URL", no report — after the two fetch invocations and
no further retry. -/
theorem claim_c6_unreachable_after_fallback (u p : String)
    (head fallbackGet : AttemptBehavior) (ts : String)
    (hscheme : parseProtocol u = some p)
    (hp : (["http:", "https:"].contains p) = true)
    (hhead : ∀ hs, head ≠ AttemptBehavior.respond hs)
    (hget : ∀ hs, fallbackGet ≠ AttemptBehavior.respond hs) :
    POST (some u) head fallbackGet ts
      = (PostResponse.errorResp 400 "Could not reach the target URL", 2) :=
  post_unreachable_eq u p head fallbackGet ts hscheme hp hhead hget

/-- Witness for C6: a target with network errors on both attempts. -/
theorem claim_c6_witness :
    POST (some "http://example.com") AttemptBehavior.networkError
        AttemptBehavior.networkError "ts"
      = (PostResponse.errorResp 400 "Could not reach the target URL", 2) :=
  claim_c6_unreachable_after_fallback "http://example.com" "http:"
    AttemptBehavior.networkError AttemptBehavior.networkError "ts"
    (by decide) (by decide)
    (fun hs h => AttemptBehavior.noConfusion h)
    (fun hs h => AttemptBehavior.noConfusion h)

/-- C7: a target answering with exactly a Content-Security-Policy header
and nothing else yields 1 pass (Content-Security-Policy), 3 fail
(X-Frame-Options, Strict-Transport-Security, X-Content-Type-Options) and
2 warn (Referrer-Policy, Permissions-Policy). -/
theorem claim_c7_csp_only_report :
    ∃ r, (POST (some "https://example.com")
        (AttemptBehavior.respond [("content-security-policy", "default-src \x27self\x27")])
        AttemptBehavior.networkError "2026-01-01T00:00:00.000Z").1
      = PostResponse.reportResp 200 r
    ∧ r.results.map HeaderCheck.status
        = [Status.pass, Status.fail, Status.fail, Status.fail, Status.warn, Status.warn]
    ∧ r.results.map HeaderCheck.name
        = ["Content-Security-Policy", "X-Frame-Options", "Strict-Transport-Security",
           "X-Content-Type-Options", "Referrer-Policy", "Permissions-Policy"]
    ∧ r.summary.passed = 1 ∧ r.summary.failed = 3 ∧ r.summary.warnings = 2 :=
  ⟨mkReport "https://example.com" "2026-01-01T00:00:00.000Z"
      [("content-security-policy", "default-src \x27self\x27")],
   by decide, by decide, by decide, by decide, by decide, by decide⟩

/-- C8: every success response carries exactly one result per checklist
entry, aligned index by index with the fixed checklist order, and the header
lookup feeding each result is case-insensitive in the stored header names
(the checklist names themselves are already lowercase). -/
theorem claim_c8_results_align_with_checklist (url : Option String)
    (head fallbackGet : AttemptBehavior) (ts : String) (st : Nat) (r : ScanReport)
    (h : (POST url head fallbackGet ts).1 = PostResponse.reportResp st r) :
    r.results.length = SECURITY_HEADERS.length
    ∧ (∀ (i : Nat) (hi : i < r.results.length) (hj : i < SECURITY_HEADERS.length),
        (r.results.get ⟨i, hi⟩).header = (SECURITY_HEADERS.get ⟨i, hj⟩).header
        ∧ (r.results.get ⟨i, hi⟩).name = (SECURITY_HEADERS.get ⟨i, hj⟩).name)
    ∧ (∀ check ∈ SECURITY_HEADERS, lowerString check.header = check.header)
    ∧ (∀ (hs₁ hs₂ : Headers) (name : String),
        hs₁.map (fun q => (lowerString q.1, q.2)) = hs₂.map (fun q => (lowerString q.1, q.2)) →
        headersGet hs₁ name = headersGet hs₂ name) := by
  obtain ⟨-, hs, rfl⟩ := post_report_shape url head fallbackGet ts st r h
  refine ⟨by simp [mkReport], ?_, by decide, headersGet_congr⟩
  intro i hi hj
  constructor <;> simp [mkReport, checkHeader]

/-- Witness for C8 at a concrete scan whose target stored the header under
an uppercase name. -/
theorem claim_c8_witness :
    (mkReport "http://example.com" "ts" [("CONTENT-SECURITY-POLICY", "x")]).results.length
      = SECURITY_HEADERS.length
    ∧ (∀ (i : Nat)
        (hi : i < (mkReport "http://example.com" "ts"
            [("CONTENT-SECURITY-POLICY", "x")]).results.length)
        (hj : i < SECURITY_HEADERS.length),
        ((mkReport "http://example.com" "ts"
            [("CONTENT-SECURITY-POLICY", "x")]).results.get ⟨i, hi⟩).header
          = (SECURITY_HEADERS.get ⟨i, hj⟩).header
        ∧ ((mkReport "http://example.com" "ts"
            [("CONTENT-SECURITY-POLICY", "x")]).results.get ⟨i, hi⟩).name
          = (SECURITY_HEADERS.get ⟨i, hj⟩).name)
    ∧ (∀ check ∈ SECURITY_HEADERS, lowerString check.header = check.header)
    ∧ (∀ (hs₁ hs₂ : Headers) (name : String),
        hs₁.map (fun q => (lowerString q.1, q.2)) = hs₂.map (fun q => (lowerString q.1, q.2)) →
        headersGet hs₁ name = headersGet hs₂ name) :=
  claim_c8_results_align_with_checklist (some "http://example.com")
    (AttemptBehavior.respond [("CONTENT-SECURITY-POLICY", "x")])
    AttemptBehavior.networkError "ts" 200
    (mkReport "http://example.com" "ts" [("CONTENT-SECURITY-POLICY", "x")]) rfl

/-- C9: for every checklist entry, a header present with the empty-string
value is treated exactly like an absent header — same `HeaderCheck` as for a
response without the header, status by severity, message `failMessage` —
because presence is decided by truthiness of the value. -/
theorem claim_c9_empty_value_like_absent (check : HeaderSpec)
    (hmem : check ∈ SECURITY_HEADERS) (hs hs₂ : Headers)
    (hempty : headersGet hs check.header = some "")
    (habsent : headersGet hs₂ check.header = none) :
    checkHeader check hs = checkHeader check hs₂
    ∧ (checkHeader check hs).status
        = (if check.severity = Severity.low then Status.warn else Status.fail)
    ∧ (checkHeader check hs).message = check.failMessage := by
  refine ⟨?_, ?_, ?_⟩
  · simp [checkHeader, hempty, habsent, headerTruthy]
  · simp only [checkHeader, hempty, headerTruthy]
    cases check.severity <;> simp
  · simp [checkHeader, hempty, headerTruthy]

/-- Witness for C9 at the Content-Security-Policy entry: a response storing
the header with an empty value versus a response without it. -/
theorem claim_c9_witness :
    checkHeader cspCheck [("content-security-policy", "")] = checkHeader cspCheck []
    ∧ (checkHeader cspCheck [("content-security-policy", "")]).status
        = (if cspCheck.severity = Severity.low then Status.warn else Status.fail)
    ∧ (checkHeader cspCheck [("content-security-policy", "")]).message
        = cspCheck.failMessage :=
  claim_c9_empty_value_like_absent cspCheck (by decide)
    [("content-security-policy", "")] [] (by decide) (by decide)

/-- C10: an unreachable target and invalid input both come back with HTTP
status 400; only the error message strings distinguish them. -/
theorem claim_c10_unreachable_shares_validation_status (u bad p : String)
    (head fallbackGet : AttemptBehavior) (ts : String)
    (hscheme : parseProtocol u = some p)
    (hp : (["http:", "https:"].contains p) = true)
    (hhead : ∀ hs, head ≠ AttemptBehavior.respond hs)
    (hget : ∀ hs, fallbackGet ≠ AttemptBehavior.respond hs)
    (hbadne : bad ≠ "") (hbad : parseProtocol bad = none) :
    ∃ msgU msgV,
      (POST (some u) head fallbackGet ts).1 = PostResponse.errorResp 400 msgU
      ∧ (POST (some bad) head fallbackGet ts).1 = PostResponse.errorResp 400 msgV
      ∧ msgU = "Could not reach the target URL"
      ∧ msgV = "Invalid URL format"
      ∧ msgU ≠ msgV := by
  refine ⟨_, _, ?_, ?_, rfl, rfl, by decide⟩
  · rw [post_unreachable_eq u p head fallbackGet ts hscheme hp hhead hget]
  · rw [post_invalid_eq bad head fallbackGet ts hbadne
      (fun q hq => by rw [hbad] at hq; cases hq)]

/-- Witness for C10: both-attempts-fail on a valid URL versus the malformed
input "not-a-url". -/
theorem claim_c10_witness :
    ∃ msgU msgV,
      (POST (some "https://example.com") AttemptBehavior.networkError
          AttemptBehavior.networkError "ts").1 = PostResponse.errorResp 400 msgU
      ∧ (POST (some "not-a-url") AttemptBehavior.networkError
          AttemptBehavior.networkError "ts").1 = PostResponse.errorResp 400 msgV
      ∧ msgU = "Could not reach the target URL"
      ∧ msgV = "Invalid URL format"
      ∧ msgU ≠ msgV :=
  claim_c10_unreachable_shares_validation_status "https://example.com" "not-a-url"
    "https:" AttemptBehavior.networkError AttemptBehavior.networkError "ts"
    (by decide) (by decide)
    (fun hs h => AttemptBehavior.noConfusion h)
    (fun hs h => AttemptBehavior.noConfusion h)
    (by decide) (by decide)
